import Mathlib

/-!
Verification of the staged video-generation pipeline.

Each definition below is a shallow embedding of a function of the Python
sources (`server.py`, `generate_bulk.py`, `scripts/*.py`).  External
collaborators (Wikipedia, Ollama, the transformers library, the network,
the filesystem) are passed in explicitly as oracle arguments; everything
the repository itself computes is translated faithfully.
-/

namespace YTAuto

/-! ### Python `str.split()` / `" ".join` model

The Python `str.split()` method with no argument splits on runs of whitespace and
drops empty pieces.  We model strings as their character lists and define
the splitter by structural recursion with an accumulator.
-/

/-- The whitespace characters relevant to the strings this code base
produces (Python `str.split()` whitespace, restricted to ASCII). -/
def isWs (c : Char) : Bool :=
  c = ' ' || c = '\n' || c = '\t' || c = '\r'

/-- Accumulator-based word splitter: `acc` holds the (reversed) current
word.  Mirrors Python `s.split()`. -/
def wordsAux : List Char → List Char → List (List Char)
  | [], acc => if acc = [] then [] else [acc.reverse]
  | c :: cs, acc =>
    if isWs c then
      if acc = [] then wordsAux cs [] else acc.reverse :: wordsAux cs []
    else
      wordsAux cs (c :: acc)

/-- Python `s.split()`, as `pyWords s`. -/
def pyWords (s : String) : List (List Char) :=
  wordsAux s.data []

/-- Python `len(s.split())`, as `pyWordCount s`. -/
def pyWordCount (s : String) : Nat :=
  (pyWords s).length

/-- Join a list of words with single spaces (Python `" ".join(ws)`). -/
def joinSpace : List (List Char) → List Char
  | [] => []
  | [w] => w
  | w :: ws => w ++ ' ' :: joinSpace ws

/-- Python `" ".join(s.split())`, as `pyNormalize s`. -/
def pyNormalize (s : String) : String :=
  ⟨joinSpace (pyWords s)⟩

theorem wordsAux_append_ws (l₁ l₂ : List Char) (acc : List Char) :
    wordsAux (l₁ ++ ' ' :: l₂) acc = wordsAux l₁ acc ++ wordsAux l₂ [] := by
  induction l₁ generalizing acc with
  | nil =>
    simp only [List.nil_append, wordsAux]
    by_cases h : acc = [] <;> simp [h, isWs]
  | cons c cs ih =>
    simp only [List.cons_append, wordsAux]
    by_cases hw : isWs c
    · by_cases h : acc = [] <;> simp [hw, h, ih]
    · simp [hw, ih]

theorem wordsAux_all_nonws (w : List Char) (acc : List Char)
    (hw : ∀ c ∈ w, ¬ isWs c) :
    wordsAux w acc = if acc.reverse ++ w = [] then [] else [acc.reverse ++ w] := by
  induction w generalizing acc with
  | nil => simp [wordsAux]
  | cons c cs ih =>
    have hc : ¬ isWs c := hw c (by simp)
    have hcs : ∀ x ∈ cs, ¬ isWs x := fun x hx => hw x (by simp [hx])
    simp only [wordsAux, hc, if_false]
    rw [ih (c :: acc) hcs]
    have hne : (c :: acc).reverse ++ cs ≠ [] := by simp
    simp [hne]

/-- Every word produced by the splitter is non-empty and whitespace-free. -/
theorem pyWords_good (l : List Char) (acc : List Char)
    (hacc : ∀ c ∈ acc, ¬ isWs c) :
    ∀ w ∈ wordsAux l acc, w ≠ [] ∧ ∀ c ∈ w, ¬ isWs c := by
  induction l generalizing acc with
  | nil =>
    intro w hw
    simp only [wordsAux] at hw
    by_cases h : acc = []
    · simp [h] at hw
    · simp only [h, if_false, List.mem_singleton] at hw
      subst hw
      refine ⟨by simpa using h, ?_⟩
      intro c hc
      exact hacc c (List.mem_reverse.mp hc)
  | cons c cs ih =>
    intro w hw
    simp only [wordsAux] at hw
    by_cases hwc : isWs c
    · simp only [hwc, if_true] at hw
      by_cases h : acc = []
      · simp only [h, if_true] at hw
        exact ih [] (by simp) w hw
      · simp only [h, if_false, List.mem_cons] at hw
        rcases hw with hw | hw
        · subst hw
          refine ⟨by simpa using h, ?_⟩
          intro x hx
          exact hacc x (List.mem_reverse.mp hx)
        · exact ih [] (by simp) w hw
    · simp only [hwc, if_false] at hw
      refine ih (c :: acc) ?_ w hw
      intro x hx
      rcases List.mem_cons.mp hx with hx | hx
      · subst hx; exact hwc
      · exact hacc x hx

/-- Splitting a space-joined list of good words recovers the list. -/
theorem wordsAux_joinSpace (ws : List (List Char))
    (h : ∀ w ∈ ws, w ≠ [] ∧ ∀ c ∈ w, ¬ isWs c) :
    wordsAux (joinSpace ws) [] = ws := by
  induction ws with
  | nil => simp [joinSpace, wordsAux]
  | cons w ws ih =>
    rcases h w (by simp) with ⟨hne, hnw⟩
    cases ws with
    | nil =>
      simp only [joinSpace]
      rw [wordsAux_all_nonws w [] hnw]
      simp [hne]
    | cons w' ws' =>
      simp only [joinSpace]
      rw [wordsAux_append_ws w (joinSpace (w' :: ws')) []]
      rw [wordsAux_all_nonws w [] hnw]
      simp only [List.reverse_nil, List.nil_append, hne, if_false]
      rw [ih (fun x hx => h x (by simp [hx]))]
      simp

/-- Re-splitting a normalized string gives the same words:
`(" ".join(s.split())).split() == s.split()`. -/
theorem pyWords_pyNormalize (s : String) :
    pyWords (pyNormalize s) = pyWords s := by
  unfold pyNormalize pyWords
  exact wordsAux_joinSpace _ (pyWords_good s.data [] (by simp))

theorem pyWordCount_pyNormalize (s : String) :
    pyWordCount (pyNormalize s) = pyWordCount s := by
  unfold pyWordCount
  rw [pyWords_pyNormalize]

/-! ### Substring containment (the Python `in` operator on strings) -/

/-- Whether `needle` begins `hay`. -/
def beginsWith : List Char → List Char → Bool
  | [], _ => true
  | _ :: _, [] => false
  | c :: cs, d :: ds => c = d && beginsWith cs ds

/-- Python `needle in hay` for strings, over character lists. -/
def containsSub (hay needle : List Char) : Bool :=
  match hay with
  | [] => needle.isEmpty
  | _ :: t => beginsWith needle hay || containsSub t needle

/-! ### Python `str.strip()` and `str.lower()` -/

def pyStripChars (l : List Char) : List Char :=
  ((l.dropWhile isWs).reverse.dropWhile isWs).reverse

def pyStrip (s : String) : String :=
  ⟨pyStripChars s.data⟩

/-- Python `str.lower()` (character-wise, which is exact for the ASCII
text this code handles). -/
def pyLower (s : String) : String :=
  ⟨s.data.map Char.toLower⟩

/-! ### Filename sanitization (`scripts/combine_video.py`, `scripts/download_images.py`, `generate_bulk.py`) -/

/-- The characters the spec calls "disallowed path characters":
`< > : " / \ | ? *`. -/
def invalidChars : List Char :=
  ['<', '>', ':', '"', '/', '\\', '|', '?', '*']

namespace combine_video

/-- Function `sanitize_filename` of `scripts/combine_video.py`: removes the invalid
characters, replaces spaces with underscores, truncates to 100 characters. -/
def sanitize_filename (filename : String) : String :=
  ⟨((filename.data.filter (fun c => !invalidChars.contains c)).map
      (fun c => if c = ' ' then '_' else c)).take 100⟩

end combine_video

namespace download_images

/-- Function `sanitize_filename` of `scripts/download_images.py`: replaces each
invalid character with an underscore.  There is no length cap. -/
def sanitize_filename (filename : String) : String :=
  ⟨filename.data.map (fun c => if invalidChars.contains c then '_' else c)⟩

end download_images

namespace generate_bulk

/-- The ad hoc name cleaning of `create_dynamic_video` in `generate_bulk.py`:
a `replace` chain that turns spaces and slashes into underscores and
deletes apostrophes, leaving every other character as it is. -/
def safe_name (topic : String) : String :=
  ⟨((topic.data.map (fun c => if c = ' ' then '_' else c)).filter
      (fun c => c ≠ Char.ofNat 39)).map (fun c => if c = '/' then '_' else c)⟩

/-- The bulk video filename: the zero-padded two-digit counter, the
cleaned topic name, and a fixed suffix (the two-digit formatting is
modelled for counters below 100). -/
def final_name (video_num : Nat) (topic : String) : String :=
  (if video_num < 10 then "0" ++ toString video_num else toString video_num) ++
    "_" ++ safe_name topic ++ "_60sec_720p60fps.mp4"

end generate_bulk

namespace combine_video

/-! ### The Mux stage (`scripts/combine_video.py`) -/

/-- The ordered candidate list for the rendered-video input, verbatim from
`combine_video_audio`. -/
def possible_video_paths : List String :=
  [ "media/videos/render_manim_dynamic/1280p60/DynamicScene.mp4",
    "media/videos/render_manim_dynamic/1280p30/DynamicScene.mp4",
    "media/videos/render_manim_dynamic/1080p60/DynamicScene.mp4",
    "media/videos/render_manim_dynamic/1080p30/DynamicScene.mp4",
    "media/videos/render_manim_dynamic/720p30/DynamicScene.mp4",
    "media/videos/render_manim_dynamic/480p15/DynamicScene.mp4",
    "media/videos/render_manim_shorts/1080p60/STEMScene.mp4",
    "media/videos/render_manim/1080p60/STEMScene.mp4",
    "media/videos/render_manim/1080p30/STEMScene.mp4",
    "media/videos/render_manim/720p30/STEMScene.mp4",
    "media/videos/render_manim/480p15/STEMScene.mp4" ]

/-- The `for path in possible_video_paths: if path.exists(): ... break` loop:
the first existing candidate wins.  `present` is the filesystem-existence
oracle; nothing else (e.g. modification times) is consulted. -/
def findVideoFile (present : String → Bool) : Option String :=
  possible_video_paths.find? present

/-- Calling `subclipped(0, t)` on a clip of duration `d` keeps `min d t` seconds. -/
def subclippedDuration (d t : ℚ) : ℚ := min d t

/-- The duration-adjustment arithmetic of `combine_video_audio` (lines
110-121): loop-and-cut when the video is shorter, trim when longer. -/
def adjustedVideoDuration (video_duration audio_duration : ℚ) : ℚ :=
  if video_duration < audio_duration then
    let loops_needed : ℤ := ⌊audio_duration / video_duration⌋ + 1
    subclippedDuration ((loops_needed : ℚ) * video_duration) audio_duration
  else if audio_duration < video_duration then
    subclippedDuration video_duration audio_duration
  else
    video_duration

def audio_path : String := "output/audio.wav"

def topic_path : String := "output/topic.json"

/-- Function `combine_video_audio`: `present` is file existence, `topicData` the
parsed `topic.json` (`none` = unparsable, `some t` with `t` the optional
`"topic"` field).  Returns the outcome together with the resulting
filesystem-existence state (the only write is the final video file). -/
def combine_video_audio (present : String → Bool)
    (topicData : Option (Option String)) :
    Except String String × (String → Bool) :=
  match findVideoFile present with
  | none => (.error "Manim video not found in any quality folder", present)
  | some _video_file =>
    if present audio_path = false then
      (.error ("Audio file not found: " ++ audio_path), present)
    else if present topic_path = false then
      (.error ("Topic file not found: " ++ topic_path), present)
    else
      match topicData with
      | none => (.error "topic.json is unparsable", present)
      | some t =>
        let topic := t.getD "STEM_Video"
        let output_file := "output/final_" ++ sanitize_filename topic ++ ".mp4"
        (.ok output_file, fun p => if p = output_file then true else present p)

/-- The `__main__` wrapper: `exit(1)` on any raised error, 0 on success. -/
def main_exit_code (present : String → Bool)
    (topicData : Option (Option String)) : Nat :=
  match (combine_video_audio present topicData).1 with
  | .ok _ => 0
  | .error _ => 1

end combine_video

namespace generate_bulk

/-! ### Keyframe generation (`generate_bulk.py`) -/

/-- The fixed formula lookup table of `extract_formula_from_wiki`. -/
def formula_map : List (String × String) :=
  [ ("pythagorean", "a² + b² = c²"),
    ("fibonacci", "F(n) = F(n-1) + F(n-2)"),
    ("euler", "e^(iπ) + 1 = 0"),
    ("quadratic", "x = (-b ± √(b²-4ac)) / 2a"),
    ("circle", "A = πr²"),
    ("golden ratio", "φ = (1 + √5) / 2"),
    ("prime", "p is prime if p > 1 and only divisible by 1 and p"),
    ("derivative", "f\x27(x) = lim(h→0) [f(x+h) - f(x)] / h"),
    ("complex", "z = a + bi where i² = -1") ]

/-- Function `extract_formula_from_wiki`: first table key occurring in the lowered
topic wins, otherwise the topic itself is returned. -/
def extract_formula_from_wiki (topic : String) : String :=
  match formula_map.find? (fun kv => containsSub (pyLower topic).data kv.1.data) with
  | some kv => kv.2
  | none => topic

structure Keyframe where
  ktype : String
  content : String
  duration : ℚ
  color : String

def colors : List String := ["YELLOW", "BLUE", "WHITE", "GREEN", "GOLD", "RED"]

/-- The comprehension keeping the stripped sentences of length above 10
out of the dot-space split of the script. -/
def usableSentences (script : String) : List String :=
  ((script.splitOn ". ").map pyStrip).filter
    (fun t => decide (t ≠ "") && decide (10 < t.length))

/-- The generic filler cues synthesized when the script is too sparse. -/
def enhancedSentences (topic : String) : List String :=
  [ "Let\x27s explore " ++ topic,
    topic ++ " is a fascinating mathematical concept",
    "It has applications across science and engineering",
    "Understanding this opens new mathematical insights" ]

/-- Sentence cleanup inside the keyframe loop: trim and ensure a final
punctuation mark. -/
def cleanSentence (s : String) : String :=
  let t := pyStrip s
  if !t.endsWith "." && !t.endsWith "!" && !t.endsWith "?" then t ++ "." else t

/-- Function `generate_animation_keyframes_with_qwen` (the `keyframes` list it
builds): up to six text cues from the script sentences, with a formula cue
inserted at position 2. -/
def generate_animation_keyframes (topic script : String) : List Keyframe :=
  let sentences := usableSentences script
  let sentences := if sentences.length < 3 then enhancedSentences topic else sentences
  let base := (sentences.take 6).mapIdx (fun i s =>
    { ktype := "text", content := cleanSentence s, duration := 7 / 2,
      color := colors.getD (i % colors.length) "YELLOW" })
  let formula := extract_formula_from_wiki topic
  base.take 2 ++
    [{ ktype := "formula", content := formula, duration := 4, color := "BLUE" }] ++
    base.drop 2

end generate_bulk

namespace server

/-! ### The `/scripts/generate` provider cascade (`server.py`) -/

/-- External provider behaviour for one request: the Ollama liveness probe,
the Ollama generation response (the `response` field; `none` = request
exception or non-200 status), and the transformers result (the generated
text after prompt-echo removal; `none` = import or generation exception). -/
structure GenOracle where
  ollamaLive : Bool
  ollamaResponse : Option String
  transformersResult : Option String

/-- Function `try_ollama_generate`: probe `/api/tags` (1s timeout), then POST
`/api/generate`; on success return `(data.get("response") or "").strip()`. -/
def try_ollama_generate (o : GenOracle) : Option String :=
  if !o.ollamaLive then none
  else
    match o.ollamaResponse with
    | none => none
    | some r => some (pyStrip r)

/-- Function `try_transformers_generate`: returns the stripped generated text, or
`none` on any exception. -/
def try_transformers_generate (o : GenOracle) : Option String :=
  o.transformersResult.map pyStrip

/-- Function `fetch_wikipedia_summary`: the summary, or the topic itself on any
failure (`none`). -/
def fetch_wikipedia_summary (wiki : Option String) (topic : String) : String :=
  match wiki with
  | some s => s
  | none => topic

/-- Python truthiness test `not text` for an optional string. -/
def pyFalsy (t : Option String) : Bool :=
  match t with
  | none => true
  | some s => s.isEmpty

structure ScriptResp where
  topic : String
  word_count : Nat
  script : String

/-- The "Wikipedia-only fallback (free, no models)" branch of
`scripts_generate`, verbatim. -/
def wikipediaFallback (topic wiki_text : String) : String :=
  let base := if wiki_text.isEmpty then "About " ++ topic ++ "." else wiki_text
  let sentences := base.splitOn ". "
  let body := pyStrip (String.intercalate ". " (sentences.take 3))
  pyNormalize ("Let’s talk about " ++ topic ++ ". " ++ body ++
    ". This concept shows up across math and science. Understanding " ++ topic ++
    " helps build strong intuition.")

/-- The provider-selection part of `scripts_generate`: explicit provider
if requested, otherwise Ollama then transformers. -/
def cascade_text (o : GenOracle) (provider : Option String) : Option String :=
  if provider = some "ollama" then try_ollama_generate o
  else if provider = some "transformers" then try_transformers_generate o
  else
    let t1 := try_ollama_generate o
    if pyFalsy t1 then try_transformers_generate o else t1

/-- The `if not text:` fallback step of `scripts_generate`. -/
def resolve_script (text : Option String) (topic wiki_text : String) : String :=
  match text with
  | some s => if s.isEmpty then wikipediaFallback topic wiki_text else s
  | none => wikipediaFallback topic wiki_text

/-- The `/scripts/generate` endpoint: explicit provider if requested, else
Ollama then transformers, else the Wikipedia-only fallback. -/
def scripts_generate (o : GenOracle) (provider : Option String)
    (reqTopic : String) (wiki : Option String) : Except String ScriptResp :=
  let topic := pyStrip reqTopic
  if topic.isEmpty then .error "topic is required"
  else
    let wiki_text := fetch_wikipedia_summary wiki topic
    let script := resolve_script (cascade_text o provider) topic wiki_text
    .ok { topic := topic, word_count := pyWordCount script, script := script }

end server

namespace generate_script_ollama

/-! ### The Ollama CLI script stage (`scripts/generate_script_ollama.py`) -/

/-- Environment for one run: the parsed `topic.json` (`none` = file absent;
`some t` with `t` the optional `"topic"` field) and the Ollama POST result
(the `response` field; `none` = exception or HTTP error status). -/
structure OllamaEnv where
  topicFile : Option (Option String)
  postResponse : Option String

/-- Function `main()`: returns the process exit code and the `full_text` written to
`script.json`, if any.  Exit 1 when `topic.json` is missing, exit 2 when
the Ollama request fails or returns an empty response. -/
def main (env : OllamaEnv) : Nat × Option String :=
  match env.topicFile with
  | none => (1, none)
  | some tfield =>
    let _topic :=
      match tfield with
      | some t => if t.isEmpty then "Mathematics" else t
      | none => "Mathematics"
    match env.postResponse with
    | none => (2, none)
    | some resp =>
      let text := pyStrip resp
      if text.isEmpty then (2, none) else (0, some text)

end generate_script_ollama

namespace generate_script

/-! ### The local script generator (`scripts/generate_script.py`) -/

/-- Whether the next character starts a whitespace run. -/
def wsAhead : List Char → Bool
  | [] => false
  | d :: _ => isWs d

/-- Python `re.split` on the sentence pattern (a lookbehind for `.`, `!`
or `?` followed by whitespace): split after `.`, `!` or `?` when
whitespace follows, consuming the whitespace run.  The recursion is
structural on a fuel counter (one unit of fuel consumes at least one
character, so `length + 1` units always suffice). -/
def splitSentencesAux : Nat → List Char → List Char → List (List Char)
  | 0, _, _ => []
  | fuel + 1, l, acc =>
    match l with
    | [] => [acc.reverse]
    | c :: cs =>
      if (c = '.' || c = '!' || c = '?') && wsAhead cs then
        (c :: acc).reverse :: splitSentencesAux fuel (cs.dropWhile isWs) []
      else
        splitSentencesAux fuel cs (c :: acc)

def splitSentences (s : String) : List String :=
  (splitSentencesAux (s.data.length + 1) s.data []).map (fun l => ⟨l⟩)

/-- Function `extract_key_points`: sentences longer than 20 characters (stripped),
first `max_points` of them. -/
def extract_key_points (explanation : String) (max_points : Nat) : List String :=
  ((((splitSentences explanation).map pyStrip).filter
      (fun t => decide (20 < t.length))).take max_points)

/-- The `hooks` dict of `generate_hook`, in insertion order. -/
def hooks (topic : String) : List (String × String) :=
  [ ("default", "Let\x27s explore " ++ topic ++ "!"),
    ("theorem", "One of math\x27s most important results: " ++ topic ++ "!"),
    ("equation", "The famous " ++ topic ++ " explained!"),
    ("number", "What makes " ++ topic ++ " special?"),
    ("sequence", "The fascinating " ++ topic ++ "!"),
    ("paradox", "Can you solve " ++ topic ++ "?"),
    ("problem", "The mind-bending " ++ topic ++ "!"),
    ("constant", "The mysterious number: " ++ topic ++ "!"),
    ("function", "Understanding " ++ topic ++ "!"),
    ("formula", "The powerful " ++ topic ++ "!") ]

/-- Function `generate_hook`: first dict key contained in the lowered topic wins,
else the default hook. -/
def generate_hook (topic : String) : String :=
  let tl := pyLower topic
  match (hooks topic).find? (fun kv => containsSub tl.data kv.1.data) with
  | some kv => kv.2
  | none => "Let\x27s explore " ++ topic ++ "!"

/-- The call-to-action pool of `generate_call_to_action`. -/
def ctas : List String :=
  [ "Like and subscribe for more math!",
    "Follow for daily math shorts!",
    "Tap the heart if you learned something!",
    "Subscribe for more quick math lessons!",
    "Share this with math lovers!" ]

structure ScriptStruct where
  hook : String
  main_point_1 : String
  main_point_2 : String
  closing : String
  full_text : String
  estimated_duration : ℚ

/-- Python slice `s[a:b]` by characters. -/
def pySliceChars (s : String) (a b : Nat) : String :=
  ⟨(s.data.drop a).take (b - a)⟩

/-- Function `structure_content`: the templated structured-script fallback.
`ctaIdx` models the `random.choice` over the CTA pool. -/
def structure_content (topic explanation : String) (ctaIdx : Nat) : ScriptStruct :=
  let hook := generate_hook topic
  let key_points := extract_key_points explanation 2
  let mp :=
    if 2 ≤ key_points.length then (key_points.getD 0 "", key_points.getD 1 "")
    else
      ( if 200 < explanation.length then pySliceChars explanation 0 200 ++ "..."
        else explanation,
        if 400 < explanation.length then pySliceChars explanation 200 400 ++ "..."
        else "" )
  let closing := ctas.getD (ctaIdx % ctas.length) ""
  let full := hook ++ " " ++ mp.1 ++ " " ++ mp.2 ++ " " ++ closing
  { hook := hook, main_point_1 := mp.1, main_point_2 := mp.2, closing := closing,
    full_text := full,
    estimated_duration := (pyWordCount full : ℚ) / 2 }

end generate_script

namespace generate_bulk

/-! ### The bulk generator script fallback (`generate_script_with_qwen`) -/

/-- The fixed middle part of the hard-coded fallback template (between the
two topic interpolations), with the line breaks and indentation of the
source. -/
def fallbackMid : String :=
  "is one of the most fascinating concepts in mathematics. \n            It reveals deep truths about numbers, patterns, and the structure of mathematical reality. \n            This concept has applications across science, engineering, and technology.\n            From theoretical foundations to practical implementations,"

/-- The fixed tail of the hard-coded fallback template. -/
def fallbackEnd : String :=
  "continues to shape \n            our understanding of the mathematical universe and its countless applications."

/-- The hard-coded fallback script used when no Wikipedia info is
available (the `else` branch of the fallback). -/
def hardcodedFallback (topic : String) : String :=
  topic ++ " " ++ fallbackMid ++ " " ++ topic ++ " " ++ fallbackEnd

/-- The Wikipedia-based fallback: intro, first three summary sentences,
fixed conclusion. -/
def wikiFallback (topic summary : String) : String :=
  let intro := "Let me tell you about " ++ topic ++ "."
  let sentences := summary.splitOn ". "
  let main_content := String.intercalate ". " (sentences.take 3) ++ "."
  let conclusion := " This concept is fundamental to mathematics and continues to fascinate researchers and enthusiasts worldwide. Understanding " ++ topic ++ " opens doors to deeper mathematical insights."
  intro ++ " " ++ main_content ++ " " ++ conclusion

/-- The fallback path of `generate_script_with_qwen` (taken whenever the
model raises or its output is shorter than 50 words), including the final
`" ".join(script.split())` cleanup. -/
def fallback_script (topic : String) (wiki_summary : Option String) : String :=
  pyNormalize (match wiki_summary with
    | some summary => wikiFallback topic summary
    | none => hardcodedFallback topic)

/-! ### Topic selection (`select_topic_from_wikipedia`) -/

/-- The keyword list used to filter search results. -/
def math_keywords : List String :=
  [ "theorem", "equation", "formula", "paradox", "identity",
    "conjecture", "proof", "constant", "sequence", "number",
    "inequality", "law", "principle", "hypothesis" ]

def hasMathKeyword (s : String) : Bool :=
  math_keywords.any (fun w => containsSub (pyLower s).data w.data)

/-- Python `random.choice(l)` modelled by an index oracle (out-of-range picks wrap
around; the source only calls this on non-empty lists). -/
def pyChoice (pick : Nat) (l : List String) : String :=
  l.getD (pick % l.length) ""

/-- Content-provider behaviour for one topic-selection run: `none` means
the corresponding call raised. -/
structure TopicOracle where
  searchResults : Option (List String)
  randomPages : Option (List String)
  fallbackResults : Option (List String)

/-- The last-resort chain: `wikipedia.search("mathematical", 5)` first
result if any, else the hard-coded `"Mathematics"`. -/
def select_topic_last_resort (fb : Option (List String)) : String :=
  match fb with
  | some (r :: _) => r
  | _ => "Mathematics"

/-- The `except` branch: random Wikipedia pages, then the last resort. -/
def select_topic_on_failure (api : Option (List String))
    (fb : Option (List String)) (pick : Nat) : String :=
  match api with
  | some (p :: ps) => pyChoice pick (p :: ps)
  | _ => select_topic_last_resort fb

/-- Function `select_topic_from_wikipedia`: search, filter by math keywords, pick;
on failure fall through the random-page and last-resort chain. -/
def select_topic_from_wikipedia (o : TopicOracle)
    (pickFiltered pickAny pickPage : Nat) : String :=
  match o.searchResults with
  | some (r :: rs) =>
    let search_results := r :: rs
    let filtered := search_results.filter hasMathKeyword
    if filtered.isEmpty then pyChoice pickAny (search_results.take 10)
    else pyChoice pickFiltered filtered
  | _ => select_topic_on_failure o.randomPages o.fallbackResults pickPage

end generate_bulk

namespace generate_prompt

/-! ### Topic selection with retries (`scripts/generate_prompt.py`) -/

/-- Outcome of one `wikipedia.summary` lookup: success, a disambiguation
(with the options list and the outcome of the follow-up lookup), a
`PageError`, or any other exception (which the loop does not catch). -/
inductive WikiOutcome where
  | ok (summary : String)
  | disamb (options : List String) (second : Option String)
  | pageError
  | otherError

structure TopicData where
  topic : String
  explanation : String
  category : String

/-- The `for attempt in range(max_retries)` loop of `generate_stem_prompt`
(`max_retries = 3`): `att i` is the outcome of the lookup on attempt `i`,
`picks i` the random replacement topic chosen before attempt `i + 1`. -/
def summaryAttempts (att : Nat → WikiOutcome) (picks : Nat → String) :
    Nat → Nat → String → Except String (String × String)
  | 0, _, _ => .error "unreachable"
  | fuel + 1, i, topic =>
    match att i with
    | .ok s => .ok (topic, s)
    | .disamb opts second =>
      match opts with
      | [] => .error "IndexError"
      | t2 :: _ =>
        match second with
        | some s => .ok (t2, s)
        | none =>
          if i < 2 then summaryAttempts att picks fuel (i + 1) (picks i)
          else .error "summary failed after disambiguation"
    | .pageError =>
      if i < 2 then summaryAttempts att picks fuel (i + 1) (picks i)
      else .error "PageError"
    | .otherError => .error "unhandled wikipedia exception"

/-- Function `generate_stem_prompt`: on success returns the topic record; every
`.error` models an exception the function re-raises. -/
def generate_stem_prompt (att : Nat → WikiOutcome) (picks : Nat → String)
    (first : String) : Except String TopicData :=
  (summaryAttempts att picks 3 0 first).map
    (fun ts => { topic := ts.1, explanation := ts.2, category := "Mathematics" })

/-- The `__main__` wrapper: exit 1 on any raised error. -/
def main_exit_code (att : Nat → WikiOutcome) (picks : Nat → String)
    (first : String) : Nat :=
  match generate_stem_prompt att picks first with
  | .ok _ => 0
  | .error _ => 1

end generate_prompt

/-! ### Stage precondition handling (`analyze_script.py`, `download_images.py`, `generate_audio.py`) -/

/-- A stage input artifact: absent, present but unparsable, or parsed. -/
inductive Artifact (α : Type) where
  | absent
  | unparsable
  | parsed (value : α)

/-- A stage outcome: a result, a *silent* `return None` (no exception), or
a raised error. -/
inductive StageResult (α : Type) where
  | ok (value : α)
  | silentNone
  | error (msg : String)

namespace generate_audio

structure ScriptJson where
  topic : Option String
  full_text : Option String

structure TopicJson where
  topic : Option String
  explanation : Option String

/-- Function `generate_tts_audio`: prefers `script.json`, falls back to
`topic.json`, raises when neither exists or no text is found.
(`full_text` is accessed with `["script"]["full_text"]`, so a missing key
raises; `explanation` is accessed with `.get(..., "")`.) -/
def generate_tts_audio (script : Artifact ScriptJson)
    (topicFile : Artifact TopicJson) : Except String String :=
  match script with
  | .parsed sd =>
    match sd.full_text with
    | none => .error "KeyError: script.full_text"
    | some text =>
      if text.isEmpty then .error "No text content found to generate audio"
      else .ok "output/audio.wav"
  | .unparsable => .error "script.json is unparsable"
  | .absent =>
    match topicFile with
    | .parsed td =>
      let text := td.explanation.getD ""
      if text.isEmpty then .error "No text content found to generate audio"
      else .ok "output/audio.wav"
    | .unparsable => .error "topic.json is unparsable"
    | .absent => .error "Neither script.json nor topic.json found"

/-- The `__main__` wrapper: exit 1 on any raised error. -/
def main_exit_code (script : Artifact ScriptJson)
    (topicFile : Artifact TopicJson) : Nat :=
  match generate_tts_audio script topicFile with
  | .ok _ => 0
  | .error _ => 1

end generate_audio

namespace analyze_script

def COUNTRY_PATTERNS : List String :=
  [ "India", "China", "France", "Germany", "Italy", "Spain", "Greece", "Egypt",
    "Persia", "Japan", "England", "Scotland", "Ireland", "Rome", "Athens",
    "United States", "America", "Britain", "Russia", "Arabia" ]

/-- Function `extract_countries`: case-insensitive substring match against the
fixed country list. -/
def extract_countries (text : String) : List String :=
  COUNTRY_PATTERNS.filter (fun c => containsSub (pyLower text).data (pyLower c).data)

def famous_names : List String :=
  [ "Pythagoras", "Euclid", "Archimedes", "Euler", "Gauss", "Newton",
    "Leibniz", "Fermat", "Pascal", "Fibonacci", "Descartes", "Riemann",
    "Cantor", "Hilbert", "Poincaré", "Ramanujan", "Turing", "Gödel",
    "Blaise Pascal", "Isaac Newton", "Carl Friedrich Gauss", "Leonhard Euler",
    "Pierre de Fermat", "René Descartes", "Leonardo Fibonacci" ]

def formula_keywords : List (String × String) :=
  [ ("pythagorean theorem", "a² + b² = c²"),
    ("euler\x27s identity", "e^(iπ) + 1 = 0"),
    ("quadratic formula", "x = (-b ± √(b²-4ac)) / 2a"),
    ("golden ratio", "φ = (1 + √5) / 2"),
    ("fibonacci", "F(n) = F(n-1) + F(n-2)") ]

def concept_keywords : List (String × List String) :=
  [ ("triangle", ["triangle", "triangular", "pythagorean"]),
    ("circle", ["circle", "circular", "radius", "circumference"]),
    ("spiral", ["spiral", "fibonacci", "golden ratio"]),
    ("graph", ["graph", "distribution", "curve", "function"]),
    ("sequence", ["sequence", "series", "progression"]),
    ("geometry", ["geometric", "shape", "polygon"]),
    ("number_line", ["number", "integer", "prime"]),
    ("infinity", ["infinity", "infinite", "endless"]) ]

def extract_concepts (topic text : String) : List String :=
  (concept_keywords.filter (fun ck =>
    ck.2.any (fun kw =>
      containsSub (pyLower text).data kw.data ||
      containsSub (pyLower topic).data kw.data))).map (·.1)

structure ScriptFile where
  topic : Option String
  full_text : Option String

structure Entities where
  topic : String
  countries : List String
  mathematicians : List String
  formulas : List String
  concepts : List String
  images : List (String × String)
  has_rich_content : Bool

/-- Function `analyze_script`: when `script.json` is absent the function logs and
does a plain `return` (no exception) — modelled as `.silentNone`.  The
regular-expression extractions (`re.findall`) and the Wikipedia image
search are external collaborators passed as oracles. -/
def analyze_script (script : Artifact ScriptFile)
    (reMathematicians reFormulas : String → List String)
    (imageSearch : String → Option String) : StageResult Entities :=
  match script with
  | .absent => .silentNone
  | .unparsable => .error "script.json is unparsable"
  | .parsed sd =>
    let topic := sd.topic.getD ""
    let full_text := sd.full_text.getD ""
    let countries := extract_countries full_text
    let mathematicians :=
      reMathematicians full_text ++
        famous_names.filter (fun n => containsSub full_text.data n.data)
    let formulas :=
      reFormulas full_text ++
        (formula_keywords.filter (fun kv =>
          containsSub (pyLower full_text).data kv.1.data)).map (·.2)
    let concepts := extract_concepts topic full_text
    let country_images := countries.filterMap (fun c =>
      (imageSearch ("Flag of " ++ c)).map (fun u => (c, u)))
    let person_images := mathematicians.filterMap (fun m =>
      (imageSearch m).map (fun u => (m, u)))
    let images := country_images ++ person_images
    .ok { topic := topic, countries := countries,
          mathematicians := mathematicians, formulas := formulas,
          concepts := concepts, images := images,
          has_rich_content := !images.isEmpty }

/-- The `__main__` wrapper: on `.silentNone` the subsequent
`result["topic"]` raises `TypeError`, which the `except` turns into
exit 1; a raised error also exits 1. -/
def main_exit_code (script : Artifact ScriptFile)
    (reM reF : String → List String) (img : String → Option String) : Nat :=
  match analyze_script script reM reF img with
  | .ok _ => 0
  | .silentNone => 1
  | .error _ => 1

end analyze_script

namespace download_images

structure EntityImage where
  name : String
  url : String

/-- Function `download_all_images`: when `entities.json` is absent (or there are no
images) the function logs and does a plain `return` — modelled as
`.silentNone`.  `download` is the per-URL network oracle; failed items are
skipped. -/
def download_all_images (entities : Artifact (List EntityImage))
    (download : String → Bool) : StageResult (List (String × String)) :=
  match entities with
  | .absent => .silentNone
  | .unparsable => .error "entities.json is unparsable"
  | .parsed imgs =>
    if imgs.isEmpty then .silentNone
    else .ok (imgs.filterMap (fun im =>
      if download im.url then some (im.name, im.url) else none))

/-- The `__main__` wrapper: a falsy result only prints
"No images downloaded" — the process exits 0. -/
def main_exit_code (entities : Artifact (List EntityImage))
    (download : String → Bool) : Nat :=
  match download_all_images entities download with
  | .ok _ => 0
  | .silentNone => 0
  | .error _ => 1

end download_images

/-! ### Artifact write traces (atomicity, spec §4.2) -/

/-- Elementary filesystem mutations performed while writing artifacts. -/
inductive FileOp where
  | truncate (path : String)
  | append (path : String) (data : String)
  | rename (src dst : String)

/-- Filesystem small-step semantics: contents by path (`none` = absent). -/
def applyOp (fs : String → Option String) : FileOp → (String → Option String)
  | .truncate p => fun q => if q = p then some "" else fs q
  | .append p d => fun q => if q = p then some ((fs p).getD "" ++ d) else fs q
  | .rename src dst => fun q =>
      if q = dst then fs src else if q = src then none else fs q

def runTrace (fs : String → Option String) (ops : List FileOp) :
    String → Option String :=
  ops.foldl applyOp fs

/-- Python `with open(path, "w") as f: json.dump(payload, f)`: opening with mode
`"w"` truncates the target in place, then the serialized payload is
written.  No temporary file and no rename are involved. -/
def writeJsonTrace (path payload : String) : List FileOp :=
  [.truncate path, .append path payload]

namespace generate_script

/-- The artifact write of `generate_educational_script`. -/
def write_trace (payload : String) : List FileOp :=
  writeJsonTrace "output/script.json" payload

end generate_script

namespace analyze_script

/-- The artifact write of `analyze_script`. -/
def write_trace (payload : String) : List FileOp :=
  writeJsonTrace "output/entities.json" payload

end analyze_script

namespace generate_bulk

/-- The four artifact writes of `create_dynamic_video`. -/
def write_traces (topicP scriptP entitiesP animP : String) : List FileOp :=
  writeJsonTrace "output/topic.json" topicP ++
  writeJsonTrace "output/script.json" scriptP ++
  writeJsonTrace "output/entities.json" entitiesP ++
  writeJsonTrace "output/animation_data.json" animP

end generate_bulk

/-- Modelled from the spec: "A Stage never partially writes an output
artifact — it builds the complete in-memory record, then performs one
atomic write (write-to-temp-then-rename, or equivalent), so a crash
mid-stage never leaves a corrupt artifact visible to the next stage."
A trace atomically writes `payload` to `path` over the initial state `fs`
if after every prefix of the trace the artifact reads either as its old
value or as the complete new value, and the whole trace leaves the new
value. -/
def atomicallyWrites (ops : List FileOp) (fs : String → Option String)
    (path payload : String) : Prop :=
  (∀ n, runTrace fs (ops.take n) path = fs path ∨
        runTrace fs (ops.take n) path = some payload) ∧
  runTrace fs ops path = some payload

/-! ## Helper lemmas -/

theorem pyWordCount_append_space (a b : String) :
    pyWordCount (a ++ (" " ++ b)) = pyWordCount a + pyWordCount b := by
  unfold pyWordCount pyWords
  have h : (a ++ (" " ++ b)).data = a.data ++ ' ' :: b.data := rfl
  rw [h, wordsAux_append_ws]
  simp

theorem ne_empty_of_pyWordCount_pos (s : String) (h : 1 ≤ pyWordCount s) :
    s ≠ "" := by
  intro he
  rw [he] at h
  exact absurd h (by decide)

theorem wikipediaFallback_word_count (topic wiki_text : String) :
    1 ≤ pyWordCount (server.wikipediaFallback topic wiki_text) := by
  unfold server.wikipediaFallback
  rw [pyWordCount_pyNormalize]
  rw [show ("Let’s talk about " : String) = "Let’s" ++ (" " ++ "talk about ") from rfl]
  simp only [String.append_assoc]
  rw [pyWordCount_append_space]
  have h1 : pyWordCount "Let’s" = 1 := rfl
  omega

theorem wikipediaFallback_ne_empty (topic wiki_text : String) :
    server.wikipediaFallback topic wiki_text ≠ "" :=
  ne_empty_of_pyWordCount_pos _ (wikipediaFallback_word_count topic wiki_text)

theorem resolve_script_ne_empty (t : Option String) (topic w : String) :
    server.resolve_script t topic w ≠ "" := by
  cases t with
  | none => exact wikipediaFallback_ne_empty topic w
  | some s =>
    show (if s.isEmpty = true then server.wikipediaFallback topic w else s) ≠ ""
    by_cases hs : s.isEmpty = true
    · rw [if_pos hs]
      exact wikipediaFallback_ne_empty topic w
    · rw [if_neg hs]
      intro he
      exact hs (by rw [he]; rfl)

/-! ## The claims -/

/-- C2: In the Mux stage, for every video duration and audio duration
(with the video a real clip of positive duration), the adjusted video
duration equals the audio duration exactly — by looping and cutting when
the video is shorter, and by trimming when it is longer.  Exact equality
is in particular within one frame interval. -/
theorem C2_mux_duration_equals_audio (video audio : ℚ) (hv : 0 < video) :
    combine_video.adjustedVideoDuration video audio = audio := by
  unfold combine_video.adjustedVideoDuration combine_video.subclippedDuration
  split_ifs with h1 h2
  · have hlt : audio / video < (⌊audio / video⌋ : ℚ) + 1 := Int.lt_floor_add_one _
    have haud : audio < ((⌊audio / video⌋ + 1 : ℤ) : ℚ) * video := by
      have := (div_lt_iff₀ hv).mp hlt
      push_cast
      linarith
    exact min_eq_right (le_of_lt haud)
  · exact min_eq_right (le_of_lt h2)
  · linarith

/-- Witness for C2 at video = 2s, audio = 5s. -/
theorem C2_witness :
    (0 : ℚ) < 2 ∧ combine_video.adjustedVideoDuration 2 5 = 5 :=
  ⟨by norm_num, C2_mux_duration_equals_audio 2 5 (by norm_num)⟩

/-- C7: for every topic and script, the keyframe generator returns between
4 and 8 keyframe records (each record carries type, content, duration and
color fields by construction); when the script yields fewer than 3 usable
sentences the four generic filler cues are used instead. -/
theorem C7_keyframe_count_in_range (topic script : String) :
    4 ≤ (generate_bulk.generate_animation_keyframes topic script).length ∧
    (generate_bulk.generate_animation_keyframes topic script).length ≤ 8 := by
  unfold generate_bulk.generate_animation_keyframes
  by_cases h : (generate_bulk.usableSentences script).length < 3 <;>
    simp only [h, if_true, if_false, List.length_append, List.length_take,
      List.length_drop, List.length_mapIdx, generate_bulk.enhancedSentences,
      List.length_cons, List.length_nil] <;>
    omega

/-- C10: the Mux stage picks its rendered-video input as the first
existing path of the fixed ordered candidate list
(`possible_video_paths`: dynamic renderer first, then shorts, then the
legacy renderer, higher quality before lower within each).  The selection
depends only on which paths exist — recency plays no role. -/
theorem C10_first_existing_path_wins (present : String → Bool) (p : String) :
    combine_video.findVideoFile present = some p ↔
      present p = true ∧
      ∃ before after,
        combine_video.possible_video_paths = before ++ p :: after ∧
        ∀ q ∈ before, present q = false := by
  unfold combine_video.findVideoFile
  rw [List.find?_eq_some]
  constructor
  · rintro ⟨hp, as, bs, heq, hall⟩
    exact ⟨hp, as, bs, heq, fun q hq => by simpa using hall q hq⟩
  · rintro ⟨hp, as, bs, heq, hall⟩
    exact ⟨hp, as, bs, heq, fun q hq => by simpa using hall q hq⟩

/-- C8: when some rendered-video candidate exists but the audio artifact
is missing, the Mux stage fails with a "not found" error carrying the
audio path, the process exits with code 1, and the filesystem (hence the
rendered video) is left unchanged. -/
theorem C8_missing_audio_fatal_video_intact
    (present : String → Bool) (topicData : Option (Option String))
    (hvid : (combine_video.possible_video_paths.find? present).isSome = true)
    (haud : present combine_video.audio_path = false) :
    (combine_video.combine_video_audio present topicData).1 =
      .error ("Audio file not found: " ++ combine_video.audio_path) ∧
    (combine_video.combine_video_audio present topicData).2 = present ∧
    combine_video.main_exit_code present topicData = 1 := by
  rcases Option.isSome_iff_exists.mp hvid with ⟨v, hv⟩
  have hcomb : combine_video.combine_video_audio present topicData =
      (.error ("Audio file not found: " ++ combine_video.audio_path), present) := by
    unfold combine_video.combine_video_audio combine_video.findVideoFile
    rw [hv]
    simp [haud]
  refine ⟨by rw [hcomb], by rw [hcomb], ?_⟩
  unfold combine_video.main_exit_code
  rw [hcomb]

/-- The filesystem of the C8 witness: only the shorts render exists. -/
def c8PresentOracle : String → Bool :=
  fun s => s == "media/videos/render_manim_shorts/1080p60/STEMScene.mp4"

/-- Witness for C8: concrete filesystem with a rendered video and no
audio file. -/
theorem C8_witness :
    (combine_video.possible_video_paths.find? c8PresentOracle).isSome = true ∧
    c8PresentOracle combine_video.audio_path = false ∧
    ((combine_video.combine_video_audio c8PresentOracle (some (some "Pi"))).1 =
      .error ("Audio file not found: " ++ combine_video.audio_path) ∧
     (combine_video.combine_video_audio c8PresentOracle (some (some "Pi"))).2 =
      c8PresentOracle ∧
     combine_video.main_exit_code c8PresentOracle (some (some "Pi")) = 1) :=
  ⟨by decide, by decide,
   C8_missing_audio_fatal_video_intact c8PresentOracle (some (some "Pi"))
     (by decide) (by decide)⟩

/-- C1 counterexample: in the `generate_script_ollama.py` stage, a
provider that returns an empty response is *not* skipped in favor of a
next candidate — `main()` returns exit code 2 (stage failure) and writes
no script, even though `topic.json` is present and parses. -/
theorem C1_counterexample :
    generate_script_ollama.main
        { topicFile := some (some "Pi"), postResponse := some "" } = (2, none) ∧
    (2 : Nat) ≠ 0 :=
  ⟨rfl, by decide⟩

/-- C1 (amended): the `/scripts/generate` endpoint cascade never fails for
lack of a provider — for every provider behaviour and every request with a
non-blank topic it returns success with a non-empty script, falling back
to the Wikipedia-only template when the providers raise, are down, or
return empty text.  The CLI stage `generate_script_ollama.py`, by
contrast, exits with code 2 on provider failure (see the counterexample). -/
theorem C1_endpoint_cascade_never_fails
    (o : server.GenOracle) (provider : Option String) (reqTopic : String)
    (wiki : Option String) (h : (pyStrip reqTopic).isEmpty = false) :
    ∃ resp, server.scripts_generate o provider reqTopic wiki = .ok resp ∧
      resp.script ≠ "" := by
  unfold server.scripts_generate
  simp only [h, Bool.false_eq_true, if_false]
  exact ⟨_, rfl, resolve_script_ne_empty _ _ _⟩

/-- The all-providers-down oracle of the C1 witness. -/
def c1DownOracle : server.GenOracle :=
  { ollamaLive := false, ollamaResponse := none, transformersResult := none }

/-- Witness for C1 with every provider down. -/
theorem C1_witness :
    (pyStrip "Pi").isEmpty = false ∧
    ∃ resp, server.scripts_generate c1DownOracle none "Pi" none = .ok resp ∧
      resp.script ≠ "" :=
  ⟨by decide, C1_endpoint_cascade_never_fails c1DownOracle none "Pi" none (by decide)⟩

/-- C3 counterexample: for topic `"Pi"` and an empty explanation, the
templated fallback `structure_content` produces a full text of fewer than
50 words, whichever call-to-action the random draw picks. -/
theorem C3_counterexample :
    ((List.range 5).all (fun i =>
      decide (pyWordCount
        (generate_script.structure_content "Pi" "" i).full_text < 50))) = true := by
  decide

/-- C3 (amended): the ≥ 50-word guarantee does not hold for the templated
fallbacks in general (see the counterexample: `structure_content` with a
short explanation, and similarly the Wikipedia-based bulk fallback with a
short summary).  It does hold for the hard-coded no-Wikipedia fallback of
`generate_script_with_qwen`, whose template contributes 50 fixed words
for every topic. -/
theorem C3_hardcoded_fallback_at_least_50_words (topic : String) :
    50 ≤ pyWordCount (generate_bulk.fallback_script topic none) := by
  have hdef : generate_bulk.fallback_script topic none =
      pyNormalize (generate_bulk.hardcodedFallback topic) := rfl
  rw [hdef, pyWordCount_pyNormalize]
  unfold generate_bulk.hardcodedFallback
  simp only [String.append_assoc]
  rw [pyWordCount_append_space, pyWordCount_append_space, pyWordCount_append_space]
  have hm : pyWordCount generate_bulk.fallbackMid = 37 := by rfl
  have he : pyWordCount generate_bulk.fallbackEnd = 13 := by rfl
  omega

/-- C4 counterexample: when `entities.json` is absent, the image-download
stage does not fail — `download_all_images` logs and returns `None`
silently, and the CLI process exits with code 0 (success). -/
theorem C4_counterexample :
    download_images.download_all_images .absent (fun _ => true) = .silentNone ∧
    download_images.main_exit_code .absent (fun _ => true) = 0 :=
  ⟨rfl, rfl⟩

/-- C4 (amended): the audio stage does fail loudly on a missing or
unusable precondition (missing both inputs, unparsable script, empty
text); the entity-analysis stage instead returns `None` silently when
`script.json` is absent (its CLI exits 1 only through a secondary
`TypeError`), and the image-download stage returns `None` silently with
exit code 0 when `entities.json` is absent. -/
theorem C4_audio_fails_loudly_analysis_and_download_return_silently :
    generate_audio.generate_tts_audio .absent .absent =
      .error "Neither script.json nor topic.json found" ∧
    generate_audio.main_exit_code .absent .absent = 1 ∧
    (∀ t, generate_audio.generate_tts_audio .unparsable t =
      .error "script.json is unparsable") ∧
    (∀ reM reF img,
      analyze_script.analyze_script .absent reM reF img = .silentNone ∧
      analyze_script.main_exit_code .absent reM reF img = 1) ∧
    (∀ download,
      download_images.download_all_images .absent download = .silentNone ∧
      download_images.main_exit_code .absent download = 0) :=
  ⟨rfl, rfl, fun _ => rfl, fun _ _ _ => ⟨rfl, rfl⟩, fun _ => ⟨rfl, rfl⟩⟩

/-- C5 counterexample: in `generate_prompt.py`, when every summary lookup
raises `PageError`, `generate_stem_prompt` re-raises after its three
attempts instead of returning a hard-coded default subject, and the
process exits with code 1. -/
theorem C5_counterexample :
    generate_prompt.generate_stem_prompt
        (fun _ => .pageError) (fun _ => "Algebra") "Pi" = .error "PageError" ∧
    generate_prompt.main_exit_code
        (fun _ => .pageError) (fun _ => "Algebra") "Pi" = 1 :=
  ⟨rfl, rfl⟩

/-- C5 (amended): the bulk-path topic selection
(`select_topic_from_wikipedia`) does satisfy the claim: when the search,
the random-page API and the last-resort search all fail (raise or return
nothing), it returns the hard-coded non-blank subject `"Mathematics"`
instead of failing.  The `generate_prompt.py` path retries with different
random subjects but raises after exhausting its retries (see the
counterexample). -/
theorem C5_bulk_selection_defaults_to_mathematics
    (o : generate_bulk.TopicOracle) (p1 p2 p3 : Nat)
    (h1 : o.searchResults = none ∨ o.searchResults = some [])
    (h2 : o.randomPages = none ∨ o.randomPages = some [])
    (h3 : o.fallbackResults = none ∨ o.fallbackResults = some []) :
    generate_bulk.select_topic_from_wikipedia o p1 p2 p3 = "Mathematics" ∧
    pyStrip (generate_bulk.select_topic_from_wikipedia o p1 p2 p3) ≠ "" := by
  have hsel : generate_bulk.select_topic_from_wikipedia o p1 p2 p3 = "Mathematics" := by
    unfold generate_bulk.select_topic_from_wikipedia
      generate_bulk.select_topic_on_failure generate_bulk.select_topic_last_resort
    rcases h1 with h1 | h1 <;> rw [h1] <;>
      rcases h2 with h2 | h2 <;> rw [h2] <;>
        rcases h3 with h3 | h3 <;> rw [h3]
  refine ⟨hsel, ?_⟩
  rw [hsel]
  decide

/-- The all-failures oracle of the C5 witness. -/
def c5FailOracle : generate_bulk.TopicOracle :=
  { searchResults := none, randomPages := none, fallbackResults := none }

/-- Witness for C5 with every provider call failing. -/
theorem C5_witness :
    (c5FailOracle.searchResults = none ∨ c5FailOracle.searchResults = some []) ∧
    (c5FailOracle.randomPages = none ∨ c5FailOracle.randomPages = some []) ∧
    (c5FailOracle.fallbackResults = none ∨ c5FailOracle.fallbackResults = some []) ∧
    (generate_bulk.select_topic_from_wikipedia c5FailOracle 0 0 0 = "Mathematics" ∧
     pyStrip (generate_bulk.select_topic_from_wikipedia c5FailOracle 0 0 0) ≠ "") :=
  ⟨Or.inl rfl, Or.inl rfl, Or.inl rfl,
   C5_bulk_selection_defaults_to_mathematics c5FailOracle 0 0 0
     (Or.inl rfl) (Or.inl rfl) (Or.inl rfl)⟩

/-- C6 counterexample: the script stage artifact write is not atomic —
starting from an empty store, after the first step of the
truncate-then-write trace the artifact is visible as an empty (partial)
file, which is neither its old state nor the complete payload. -/
theorem C6_counterexample :
    ¬ atomicallyWrites (generate_script.write_trace "PAYLOAD")
        (fun _ => none) "output/script.json" "PAYLOAD" := by
  intro h
  have h1 := h.1 1
  have hrun : runTrace (fun _ => none)
      ((generate_script.write_trace "PAYLOAD").take 1) "output/script.json" =
      some "" := rfl
  rw [hrun] at h1
  rcases h1 with h1 | h1
  · exact absurd h1 (by decide)
  · exact absurd h1 (by decide)

/-- C6 (amended): every stage artifact write builds the complete record in
memory and then performs one *direct* `open(path, "w")` + `json.dump`,
i.e. a truncate-then-write of the final path with no temporary file and no
rename; the full payload is on disk after the trace, but mid-write the
artifact is visible in a partial state (see the counterexample). -/
theorem C6_writes_are_direct_truncate_then_write
    (fs : String → Option String) (path payload : String) :
    runTrace fs (writeJsonTrace path payload) path = some payload ∧
    writeJsonTrace path payload =
      [FileOp.truncate path, FileOp.append path payload] := by
  refine ⟨?_, rfl⟩
  show applyOp (applyOp fs (.truncate path)) (.append path payload) path = some payload
  simp [applyOp]

/-- C9 counterexample: the bulk video filename derived from the topic
keeps the disallowed character `?` (the ad hoc cleaning only handles
spaces, apostrophes and slashes), so a disallowed path character reaches a
filesystem write un-replaced. -/
theorem C9_counterexample :
    (generate_bulk.final_name 1 "What? Is this").data.contains '?' = true ∧
    '?' ∈ invalidChars :=
  ⟨by decide, by decide⟩

/-- C9 (amended): the dedicated sanitizers do satisfy the claim —
`combine_video.sanitize_filename` removes every disallowed character and
caps the length at 100, and `download_images.sanitize_filename` replaces
every disallowed character (though without a length cap); the bulk video
name of `generate_bulk.py` is not sanitized against the full disallowed
set (see the counterexample). -/
theorem C9_dedicated_sanitizers_remove_invalid_chars (s : String) :
    ((combine_video.sanitize_filename s).data.all
      (fun c => !invalidChars.contains c)) = true ∧
    (combine_video.sanitize_filename s).data.length ≤ 100 ∧
    ((download_images.sanitize_filename s).data.all
      (fun c => !invalidChars.contains c)) = true := by
  refine ⟨?_, ?_, ?_⟩
  · rw [List.all_eq_true]
    intro c hc
    have hc' := List.mem_of_mem_take hc
    rcases List.mem_map.mp hc' with ⟨d, hd, rfl⟩
    rcases List.mem_filter.mp hd with ⟨_, hdgood⟩
    by_cases hsp : d = ' '
    · subst hsp
      simp only [if_pos rfl]
      decide
    · rw [if_neg hsp]
      exact hdgood
  · show (List.take 100 _).length ≤ 100
    exact List.length_take_le 100 _
  · rw [List.all_eq_true]
    intro c hc
    rcases List.mem_map.mp hc with ⟨d, _, rfl⟩
    by_cases hinv : invalidChars.contains d = true
    · rw [if_pos hinv]
      decide
    · rw [if_neg hinv]
      simpa using hinv

end YTAuto
